import Mathlib

/-!
Verification of the loan-servicing orchestration repository.

The Python source is embedded shallowly:
- database rows (Python dicts) become association lists of `DBValue`s;
- Python floats are modelled as exact rationals;
- fallible operations return explicit error rows / `Except` values, matching
  the try/except structure of the source;
- the language model is an opaque oracle `Model`, and the orchestration graph
  is a bounded step function over message lists.
-/

namespace LoanServicing

/-- A value stored in a database row (Python dict value). -/
inductive DBValue where
  | str (s : String)
  | num (q : ℚ)
  | int (n : ℤ)
deriving DecidableEq, Repr

/-- A database row: a Python dict from column names to values. -/
abbrev Row := List (String × DBValue)

/-- Python dict membership test for the "error" key: the source writes
`if "error" in result`. -/
def hasError (r : Row) : Bool := (List.lookup "error" r).isSome

/-- Python `row.get(k, d)` where the caller uses the value as a number
(`interest_rate`, `outstanding_balance`, ...). Integers coerce to rationals
the way Python ints mix with floats. -/
def getNum (r : Row) (k : String) (d : ℚ) : ℚ :=
  match List.lookup k r with
  | some (DBValue.num q) => q
  | some (DBValue.int n) => (n : ℚ)
  | _ => d

/-- Python `row.get(k, d)` where the caller uses the value as an integer
(`credit_score`). -/
def getInt (r : Row) (k : String) (d : ℤ) : ℤ :=
  match List.lookup k r with
  | some (DBValue.int n) => n
  | _ => d

/-- Rendering of one dict value inside an f-string.  Python number format
specifiers (thousands separators, fixed decimals) are abstracted to the
plain decimal rendering; prose claims never depend on that formatting. -/
def DBValue.render : DBValue → String
  | DBValue.str s => s
  | DBValue.num q => toString q
  | DBValue.int n => toString n

/-- Python `row.get(k, d)` rendered into an f-string, with `d` the literal
default the source supplies (for example the string N/A). -/
def getShow (r : Row) (k : String) (d : String) : String :=
  match List.lookup k r with
  | some v => v.render
  | none => d

/-- The database snapshot behind the SQL queries: the user_accounts and
user_loans tables, keyed by user_id. -/
structure Database where
  user_accounts : List (String × Row)
  user_loans : List (String × Row)
deriving DecidableEq, Repr

/-- Rendering of Python `f"...{x}..."` when `x : Optional[...]`: `None`
prints as the word None. -/
def pyOptStr : Option String → String
  | none => "None"
  | some s => s

/-- LoanServicingAgent.get_account_details (src/tools.py lines 21-38): a
`SELECT * FROM user_accounts WHERE user_id = :user_id` returning the row, or
an error dict when the engine is absent or no row matches.  A `None` user id
(possible through smart_refinance_agent) matches no row. -/
def get_account_details (engine : Bool) (db : Database) (user_id : Option String) : Row :=
  if engine = false then [("error", DBValue.str "Database not configured")]
  else
    match user_id.bind (fun uid => List.lookup uid db.user_accounts) with
    | some row => row
    | none => [("error", DBValue.str "User not found")]

/-- LoanServicingAgent.get_loan_details (src/tools.py lines 40-57): the same
query against user_loans, with the error text Loan not found. -/
def get_loan_details (engine : Bool) (db : Database) (user_id : Option String) : Row :=
  if engine = false then [("error", DBValue.str "Database not configured")]
  else
    match user_id.bind (fun uid => List.lookup uid db.user_loans) with
    | some row => row
    | none => [("error", DBValue.str "Loan not found")]

/-- Python `x if x else fb` on an optional float: truthiness, so both `None`
and `0.0` select the fallback. -/
def orTruthy (x : Option ℚ) (fb : ℚ) : ℚ :=
  match x with
  | some v => if v = 0 then fb else v
  | none => fb

/-- Python `x if x else fb` on an optional int: `None` and `0` select the
fallback. -/
def orTruthyInt (x : Option ℤ) (fb : ℤ) : ℤ :=
  match x with
  | some v => if v = 0 then fb else v
  | none => fb

/-- The numeric content of one refinance analysis. -/
structure RefinanceFigures where
  current_rate : ℚ
  current_balance : ℚ
  current_payment : ℚ
  proposed_rate : ℚ
  credit_score : ℤ
  income : ℚ
  rate_difference : ℚ
  monthly_savings : ℚ
  annual_savings : ℚ
  recommendation : String
deriving DecidableEq, Repr

/-- The computation inside RefinanceAgent.analyze_refinance_options
(src/tools.py lines 118-150), given the two fetched rows.  The Python float
literal 0.95 is the exact rational 95/100, and 0.5 is 1/2. -/
def refinanceFigures (loan_data financial_data : Row) (new_rate : Option ℚ)
    (new_credit_score : Option ℤ) (new_income : Option ℚ) : RefinanceFigures :=
  let current_rate := getNum loan_data "interest_rate" 0
  let current_balance := getNum loan_data "outstanding_balance" 0
  let current_payment := getNum loan_data "monthly_payment" 0
  let proposed_rate := orTruthy new_rate (current_rate * (95 / 100))
  let credit_score := orTruthyInt new_credit_score (getInt financial_data "credit_score" 700)
  let income := orTruthy new_income (getNum financial_data "annual_income" 50000)
  let rate_difference := current_rate - proposed_rate
  let monthly_savings := current_balance * (rate_difference / 100) / 12
  let annual_savings := monthly_savings * 12
  { current_rate := current_rate
    current_balance := current_balance
    current_payment := current_payment
    proposed_rate := proposed_rate
    credit_score := credit_score
    income := income
    rate_difference := rate_difference
    monthly_savings := monthly_savings
    annual_savings := annual_savings
    recommendation :=
      if rate_difference > 1 / 2 then "Proceed with refinance"
      else "Current terms are competitive" }

/-- Outcome of analyze_refinance_options before rendering: either the early
return for missing data, or the computed figures. -/
inductive RefinanceOutcome where
  | failure (msg : String)
  | analysis (f : RefinanceFigures)
deriving DecidableEq, Repr

/-- RefinanceAgent.analyze_refinance_options (src/tools.py lines 105-155),
up to rendering: fetch both rows, bail out when either carries an error key,
otherwise compute the figures. -/
def analyze_refinance_outcome (engine : Bool) (db : Database) (user_id : Option String)
    (new_rate : Option ℚ) (new_credit_score : Option ℤ) (new_income : Option ℚ) :
    RefinanceOutcome :=
  let loan_data := get_loan_details engine db user_id
  let financial_data := get_account_details engine db user_id
  if hasError loan_data || hasError financial_data then
    RefinanceOutcome.failure "Cannot analyze refinance: Missing loan or financial data"
  else
    RefinanceOutcome.analysis
      (refinanceFigures loan_data financial_data new_rate new_credit_score new_income)

/-- Rendering of the analysis f-string of analyze_refinance_options
(src/tools.py lines 132-151); numeric formatting abstracted as in
`DBValue.render`. -/
def renderAnalysis (user_id : Option String) (f : RefinanceFigures) : String :=
  "\n            **Refinance Analysis for User " ++ pyOptStr user_id ++ ":**\n" ++
  "            Current Loan:\n" ++
  "            - Rate: " ++ toString f.current_rate ++ "%\n" ++
  "            - Balance: $" ++ toString f.current_balance ++ "\n" ++
  "            - Monthly Payment: $" ++ toString f.current_payment ++ "\n" ++
  "            Proposed Terms:\n" ++
  "            - New Rate: " ++ toString f.proposed_rate ++ "%\n" ++
  "            - Credit Score: " ++ toString f.credit_score ++ "\n" ++
  "            - Annual Income: $" ++ toString f.income ++ "\n" ++
  "            Potential Savings:\n" ++
  "            - Monthly Savings: $" ++ toString f.monthly_savings ++ "\n" ++
  "            - Annual Savings: $" ++ toString f.annual_savings ++ "\n" ++
  "            - Rate Improvement: " ++ toString f.rate_difference ++ " percentage points\n" ++
  "            Recommendation: " ++ f.recommendation ++ "\n            "

/-- Rendering step of analyze_refinance_options: a failure outcome is the
early-return string itself, an analysis outcome is rendered. -/
def renderRefinance (user_id : Option String) : RefinanceOutcome → String
  | RefinanceOutcome.failure msg => msg
  | RefinanceOutcome.analysis f => renderAnalysis user_id f

/-- RefinanceAgent.analyze_refinance_options as the source has it: a string.
The Python function computes the figures and renders them into one prose
string; the embedding separates the computation (`analyze_refinance_outcome`)
from the rendering so the numeric outputs are directly addressable. -/
def analyze_refinance_options (engine : Bool) (db : Database) (user_id : Option String)
    (new_rate : Option ℚ) (new_credit_score : Option ℤ) (new_income : Option ℚ) : String :=
  renderRefinance user_id
    (analyze_refinance_outcome engine db user_id new_rate new_credit_score new_income)

/-- Projection used by claim statements: the figures of a successful
analysis. -/
def figuresOf : RefinanceOutcome → Option RefinanceFigures
  | RefinanceOutcome.analysis f => some f
  | RefinanceOutcome.failure _ => none

/-- Rendering of the success f-string of get_user_financial_info
(src/tools.py lines 172-178). -/
def render_financial_info (user_id : String) (result : Row) : String :=
  "\n    Financial Information for User " ++ user_id ++ ":\n" ++
  "    - Annual Income: $" ++ getShow result "annual_income" "N/A" ++ "\n" ++
  "    - Credit Score: " ++ getShow result "credit_score" "N/A" ++ "\n" ++
  "    - Debt-to-Income Ratio: " ++ getShow result "debt_to_income" "N/A" ++ "%\n" ++
  "    - Account Status: " ++ getShow result "account_status" "Active" ++ "\n    "

/-- Tool get_user_financial_info (src/tools.py lines 163-178). -/
def get_user_financial_info (engine : Bool) (db : Database) (user_id : String) : String :=
  let result := get_account_details engine db (some user_id)
  match List.lookup "error" result with
  | some v => "Error retrieving financial info: " ++ v.render
  | none => render_financial_info user_id result

/-- Tool get_current_mortgage_rate (src/tools.py lines 180-192): a constant
simulated market-rate text. -/
def get_current_mortgage_rate : String :=
  "\n    Current Market Mortgage Rates:\n" ++
  "    - 30-year Fixed: 6.875%\n" ++
  "    - 15-year Fixed: 6.125%\n" ++
  "    - 5/1 ARM: 5.750%\n    \n" ++
  "    Rates updated daily and subject to credit approval.\n    "

/-- Rendering of the advice f-string of
LoanAdvisorAgent.analyze_loan_optimization (src/tools.py lines 80-92). -/
def render_advice (user_id : String) (loan_data : Row) : String :=
  "\n            **Loan Optimization Analysis for User " ++ user_id ++ ":**\n" ++
  "            Current Loan Status:\n" ++
  "            - Outstanding Balance: $" ++ getShow loan_data "outstanding_balance" "0" ++ "\n" ++
  "            - Monthly Payment: $" ++ getShow loan_data "monthly_payment" "0" ++ "\n" ++
  "            - Interest Rate: " ++ getShow loan_data "interest_rate" "0" ++ "%\n" ++
  "            Recommendations:\n" ++
  "            1. Consider making extra principal payments to reduce total interest\n" ++
  "            2. If credit score improved, explore refinancing options\n" ++
  "            3. Set up automatic payments for potential rate discounts\n            "

/-- LoanAdvisorAgent.analyze_loan_optimization (src/tools.py lines 66-96).
The financial_data argument is accepted but, as in the source, unused: the
body refetches the loan row and renders advice from it. -/
def analyze_loan_optimization (engine : Bool) (db : Database) (user_id : String)
    (financial_data : Row) : String :=
  let loan_data := get_loan_details engine db (some user_id)
  match List.lookup "error" loan_data with
  | some v => "Cannot analyze loan: " ++ v.render
  | none =>
    let _ := financial_data
    render_advice user_id loan_data

/-- Tool loan_advisor_agent (src/tools.py lines 194-199). -/
def loan_advisor_agent (engine : Bool) (db : Database) (user_id : String) : String :=
  let financial_data := get_account_details engine db (some user_id)
  analyze_loan_optimization engine db user_id financial_data

/-- Rendering of the success f-string of get_user_account_detail
(src/tools.py lines 210-217). -/
def render_account_detail (user_id : String) (result : Row) : String :=
  "\n    Account Details for User " ++ user_id ++ ":\n" ++
  "    - Account Number: " ++ getShow result "account_number" "N/A" ++ "\n" ++
  "    - Account Type: " ++ getShow result "account_type" "N/A" ++ "\n" ++
  "    - Account Status: " ++ getShow result "account_status" "N/A" ++ "\n" ++
  "    - Last Updated: " ++ getShow result "last_updated" "N/A" ++ "\n" ++
  "    - Contact Email: " ++ getShow result "email" "N/A" ++ "\n    "

/-- Tool get_user_account_detail (src/tools.py lines 201-217). -/
def get_user_account_detail (engine : Bool) (db : Database) (user_id : String) : String :=
  let result := get_account_details engine db (some user_id)
  match List.lookup "error" result with
  | some v => "Error retrieving account details: " ++ v.render
  | none => render_account_detail user_id result

/-- Rendering of the success f-string of get_user_loan_detail
(src/tools.py lines 228-239). -/
def render_loan_detail (user_id : String) (result : Row) : String :=
  "\n    Loan Details for User " ++ user_id ++ ":\n" ++
  "    - Loan Number: " ++ getShow result "loan_number" "N/A" ++ "\n" ++
  "    - Loan Type: " ++ getShow result "loan_type" "N/A" ++ "\n" ++
  "    - Original Amount: $" ++ getShow result "original_amount" "0" ++ "\n" ++
  "    - Outstanding Balance: $" ++ getShow result "outstanding_balance" "0" ++ "\n" ++
  "    - Interest Rate: " ++ getShow result "interest_rate" "0" ++ "%\n" ++
  "    - Monthly Payment: $" ++ getShow result "monthly_payment" "0" ++ "\n" ++
  "    - Next Payment Due: " ++ getShow result "next_payment_date" "N/A" ++ "\n" ++
  "    - Loan Term: " ++ getShow result "loan_term_months" "N/A" ++ " months\n" ++
  "    - Payments Made: " ++ getShow result "payments_made" "N/A" ++ "\n    "

/-- Tool get_user_loan_detail (src/tools.py lines 219-239): returns the
error text when the loan row is missing, never raising. -/
def get_user_loan_detail (engine : Bool) (db : Database) (user_id : String) : String :=
  let result := get_loan_details engine db (some user_id)
  match List.lookup "error" result with
  | some v => "Error retrieving loan details: " ++ v.render
  | none => render_loan_detail user_id result

/-- The fields smart_refinance_agent extracts from a JSON object input via
`data.get(...)` (src/tools.py lines 249-253); each is absent when the key is
missing. -/
structure ParsedRefinanceInput where
  user_id : Option String
  new_interest_rate : Option ℚ
  new_credit_score : Option ℤ
  new_income : Option ℚ
deriving DecidableEq, Repr

/-- Helper: does the second character list start with the first? -/
def charsStart : List Char → List Char → Bool
  | [], _ => true
  | _ :: _, [] => false
  | a :: sub, b :: l => a == b && charsStart sub l

/-- Python `s.startswith(pre)`, phrased over the character lists so that
concrete instances evaluate inside the kernel. -/
def pyStarts (s pre : String) : Bool := charsStart pre.toList s.toList

/-- Tool smart_refinance_agent (src/tools.py lines 241-264).  `json.loads`
is modelled as an explicit fallible parameter `jsonParse`; the surrounding
try/except turns a parse failure (malformed JSON) into the error string
rather than an exception, and an input not starting with a left brace is
taken whole as the user id with all overrides absent. -/
def smart_refinance_agent (engine : Bool) (db : Database)
    (jsonParse : String → Except String ParsedRefinanceInput)
    (refinance_input : String) : String :=
  if pyStarts refinance_input "\x7b" then
    match jsonParse refinance_input with
    | Except.error e => "Error in refinance analysis: " ++ e
    | Except.ok data =>
      analyze_refinance_options engine db data.user_id
        data.new_interest_rate data.new_credit_score data.new_income
  else
    analyze_refinance_options engine db (some refinance_input) none none none

/-- Helper for `strContains`: does the second character list contain the
first as a contiguous run? -/
def charsContain (sub : List Char) : List Char → Bool
  | [] => charsStart sub []
  | b :: l => charsStart sub (b :: l) || charsContain sub l

/-- Python substring membership `sub in s`. -/
def strContains (s sub : String) : Bool := charsContain sub.toList s.toList

/-- ASCII lowering of one character; the keyword tests of main.py only
involve ASCII text, where Python str.lower agrees. -/
def lowerChar (c : Char) : Char :=
  if 65 ≤ c.toNat ∧ c.toNat ≤ 90 then Char.ofNat (c.toNat + 32) else c

/-- Python `s.lower()`, phrased over the character list so that concrete
instances evaluate inside the kernel. -/
def pyLower (s : String) : String := String.mk (s.toList.map lowerChar)

/-- Rendering of an optional number inside the override instruction
f-string of main.py; Python prints `None` for an absent field. -/
def pyOptNum (x : Option ℚ) : String :=
  match x with
  | none => "None"
  | some q => toString q

/-- Rendering of an optional integer inside that same f-string. -/
def pyOptInt (x : Option ℤ) : String :=
  match x with
  | none => "None"
  | some n => toString n

/-- The effective query built by ask_question (src/main.py lines 65-74):
when the lowercased query mentions refinance or restructure, the override
instruction text is appended; otherwise the query passes through
unchanged. -/
def full_query (query : String) (new_interest_rate : Option ℚ)
    (new_credit_score : Option ℤ) (new_income : Option ℚ) : String :=
  if strContains (pyLower query) "refinance" || strContains (pyLower query) "restructure" then
    query ++
      "\nPerform refinance analysis using DB values, but override with " ++
      "user-provided values: rate=" ++ pyOptNum new_interest_rate ++
      ", score=" ++ pyOptInt new_credit_score ++
      ", income=" ++ pyOptNum new_income ++ ". " ++
      "Use new offer column if present for better recommendation."
  else query

/-- Role of a conversation message (langchain message classes). -/
inductive Role where
  | system
  | human
  | ai
  | tool
deriving DecidableEq, Repr

/-- A structured tool-call request emitted by the model: tool name plus its
single string argument. -/
structure ToolCall where
  name : String
  arg : String
deriving DecidableEq, Repr

/-- A conversation message: role, content, and the tool calls attached when
an assistant turn requests tools. -/
structure Msg where
  role : Role
  content : String
  tool_calls : List ToolCall
deriving DecidableEq, Repr

/-- An assistant response from the bound model: content plus requested tool
calls (empty when the turn is a final answer). -/
structure AIResponse where
  content : String
  tool_calls : List ToolCall
deriving DecidableEq, Repr

/-- An `AIResponse` as the assistant message appended to history. -/
def AIResponse.toMsg (r : AIResponse) : Msg :=
  { role := Role.ai, content := r.content, tool_calls := r.tool_calls }

/-- The language model as an opaque oracle: full history in, assistant
response out.  This is the spec's Model Invocation Adapter contract. -/
abbrev Model := List Msg → AIResponse

/-- The routing system prompt of the chatbot node (src/graph.py lines
40-52), synthesized from the session thread_id. -/
def routingPrompt (user_id : Option String) : String :=
  "\nYou are a multi-agent banking assistant helping user ID " ++ pyOptStr user_id ++ ".\n\n" ++
  "ROUTING RULES:\n" ++
  "- If query is about **current balance, outstanding amount, payment, mortgage rate, loan summary** → use Loan Servicing tools.\n" ++
  "- If query is about **loan details (full breakdown)** → use get_user_loan_detail tool.\n" ++
  "- If query is about **closing loan early, prepaying, reducing loan payment, optimizing repayment strategy** → use Personalized Loan Advisor tool.\n" ++
  "- If query is about **refinancing, comparing current loan with new offer, refinance savings, benefit/loss analysis** → ALWAYS use Smart Refinance Agent tool.\n\n" ++
  "Be concise, financial but user-friendly.\n"

/-- The fresh system message the chatbot node builds on every invocation. -/
def systemMsg (user_id : Option String) : Msg :=
  { role := Role.system, content := routingPrompt user_id, tool_calls := [] }

/-- The chatbot node (src/graph.py lines 35-55): invoke the model on the
fresh system message prepended to the stored history, and return a state
delta holding only the response. -/
def chatbot (model : Model) (user_id : Option String) (messages : List Msg) : List Msg :=
  [(model (systemMsg user_id :: messages)).toMsg]

/-- Modelled from the spec: the add_messages reducer of the graph state
(src/graph.py line 19) appends a node's returned delta to the stored
message list (spec section 3, Conversation State is append-only). -/
def add_messages (state delta : List Msg) : List Msg := state ++ delta

/-- Modelled from the spec: the prebuilt tools_condition edge
(src/graph.py line 63) routes to the tools node exactly when the last
message carries tool calls, and to END otherwise (spec section 4.1). -/
def tools_condition (messages : List Msg) : Bool :=
  match messages.getLast? with
  | some m => !m.tool_calls.isEmpty
  | none => false

/-- Modelled from the spec: the prebuilt ToolNode (src/graph.py line 60)
executes every tool call of the last message in request order and returns
one tool-role result message per call (spec sections 4.1 and 4.3). -/
def toolNode (dispatch : ToolCall → String) (messages : List Msg) : List Msg :=
  match messages.getLast? with
  | some m => m.tool_calls.map (fun c => { role := Role.tool, content := dispatch c, tool_calls := [] })
  | none => []

/-- Dispatch of a tool call by name over the bound tool list
(src/graph.py lines 22-29); an unknown name yields an error text result
rather than a raised exception. -/
def dispatchTool (engine : Bool) (db : Database)
    (jsonParse : String → Except String ParsedRefinanceInput) (c : ToolCall) : String :=
  if c.name = "get_user_financial_info" then get_user_financial_info engine db c.arg
  else if c.name = "get_current_mortgage_rate" then get_current_mortgage_rate
  else if c.name = "loan_advisor_agent" then loan_advisor_agent engine db c.arg
  else if c.name = "get_user_account_detail" then get_user_account_detail engine db c.arg
  else if c.name = "get_user_loan_detail" then get_user_loan_detail engine db c.arg
  else if c.name = "smart_refinance_agent" then smart_refinance_agent engine db jsonParse c.arg
  else "Error: " ++ c.name ++ " is not a valid tool"

/-- Terminal outcome of one orchestration run: a final history, or the
exhaustion abort. -/
inductive RunResult where
  | finished (messages : List Msg)
  | exhausted
deriving DecidableEq, Repr

/-- Modelled from the spec: the compiled graph run (src/graph.py lines
58-68) with the orchestration library's configured iteration ceiling.  Each
super-step runs the chatbot node; a response with tool calls routes through
the tools node and loops, a response without tool calls finishes.  Spending
the whole ceiling without a final answer is the OrchestrationExhausted
abort of spec sections 4.1 and 7. -/
def runGraph (model : Model) (dispatch : ToolCall → String) (user_id : Option String) :
    Nat → List Msg → RunResult
  | 0, _ => RunResult.exhausted
  | Nat.succ n, msgs =>
    let msgs1 := add_messages msgs (chatbot model user_id msgs)
    if tools_condition msgs1 then
      runGraph model dispatch user_id n (add_messages msgs1 (toolNode dispatch msgs1))
    else
      RunResult.finished msgs1

/-- The initial user message of a run (src/main.py line 86). -/
def humanMsg (q : String) : Msg := { role := Role.human, content := q, tool_calls := [] }

/-- A loan row whose stored rate is 7.25 percent, used as the stored-rate
scenario of the override claims. -/
def loanRow725 : Row :=
  [("interest_rate", DBValue.num (29 / 4)),
   ("outstanding_balance", DBValue.num 200000),
   ("monthly_payment", DBValue.num 1200)]

/-- The account row paired with `loanRow725`. -/
def accountRow725 : Row :=
  [("credit_score", DBValue.int 680), ("annual_income", DBValue.num 60000)]

/-- A one-user database snapshot with a stored rate of 7.25. -/
def db725 : Database :=
  { user_accounts := [("u7", accountRow725)], user_loans := [("u7", loanRow725)] }

/-- A loan row whose stored rate is 5.49 percent: against a proposed rate of
5.0 the rate difference is 0.49. -/
def loanRow49 : Row :=
  [("interest_rate", DBValue.num (549 / 100)),
   ("outstanding_balance", DBValue.num 250000),
   ("monthly_payment", DBValue.num 1500)]

/-- A loan row whose stored rate is 5.51 percent: against a proposed rate of
5.0 the rate difference is 0.51. -/
def loanRow51 : Row :=
  [("interest_rate", DBValue.num (551 / 100)),
   ("outstanding_balance", DBValue.num 250000),
   ("monthly_payment", DBValue.num 1500)]

/-- The account row paired with the boundary loan rows. -/
def accountRowB : Row :=
  [("credit_score", DBValue.int 720), ("annual_income", DBValue.num 80000)]

/-- Database snapshot for the 0.49 boundary case. -/
def db49 : Database :=
  { user_accounts := [("u1", accountRowB)], user_loans := [("u1", loanRow49)] }

/-- Database snapshot for the 0.51 boundary case. -/
def db51 : Database :=
  { user_accounts := [("u1", accountRowB)], user_loans := [("u1", loanRow51)] }

/-- A database with no users at all: every lookup misses. -/
def emptyDb : Database := { user_accounts := [], user_loans := [] }

/-- A parse stub standing in for json.loads in scenarios where the refinance
tool is never reached. -/
def unusedParse : String → Except String ParsedRefinanceInput :=
  fun _ => Except.error "Invalid JSON"

/-- A successful analysis outcome carries exactly the figures computed from
the two fetched rows. -/
theorem analysis_eq_figures (engine : Bool) (db : Database) (uid : Option String)
    (r : Option ℚ) (c : Option ℤ) (i : Option ℚ) (f : RefinanceFigures)
    (h : analyze_refinance_outcome engine db uid r c i = RefinanceOutcome.analysis f) :
    f = refinanceFigures (get_loan_details engine db uid) (get_account_details engine db uid)
          r c i := by
  unfold analyze_refinance_outcome at h
  dsimp only at h
  split at h
  · exact absurd h (by simp)
  · injection h with h
    exact h.symm

/-- The recommendation string of any computed figures flips exactly at the
1/2 threshold on the rate difference. -/
theorem recommendation_iff_figures (l fin : Row) (r : Option ℚ) (c : Option ℤ) (i : Option ℚ) :
    ((refinanceFigures l fin r c i).recommendation = "Proceed with refinance"
      ↔ (refinanceFigures l fin r c i).rate_difference > 1 / 2) ∧
    ((refinanceFigures l fin r c i).recommendation = "Current terms are competitive"
      ↔ ¬ (refinanceFigures l fin r c i).rate_difference > 1 / 2) := by
  unfold refinanceFigures
  dsimp only
  constructor
  · split <;> simp_all
  · split <;> simp_all

/-- C1: the claim states every supplied override takes precedence and every
absent override falls back to the queried stored value.  The code falsifies
both halves on the rate field: with the stored rate 29/4 (7.25) and the
override absent, the proposed rate is the scaled 551/80 (6.8875) rather than
the stored 29/4; and with the override supplied as 0.0 it is again 551/80
rather than the supplied 0. -/
theorem C1_override_counterexample :
    getNum loanRow725 "interest_rate" 0 = 29 / 4 ∧
    (figuresOf (analyze_refinance_outcome true db725 (some "u7") none none none)).map
        RefinanceFigures.proposed_rate = some (551 / 80) ∧
    (551 / 80 : ℚ) ≠ 29 / 4 ∧
    (figuresOf (analyze_refinance_outcome true db725 (some "u7") (some 0) none none)).map
        RefinanceFigures.proposed_rate = some (551 / 80) ∧
    (551 / 80 : ℚ) ≠ 0 := by
  have e1 : analyze_refinance_outcome true db725 (some "u7") none none none
      = RefinanceOutcome.analysis (refinanceFigures loanRow725 accountRow725 none none none) :=
    rfl
  have e2 : analyze_refinance_outcome true db725 (some "u7") (some 0) none none
      = RefinanceOutcome.analysis (refinanceFigures loanRow725 accountRow725 (some 0) none none) :=
    rfl
  have h1 : getNum loanRow725 "interest_rate" 0 = 29 / 4 := rfl
  refine ⟨rfl, ?_, by norm_num, ?_, by norm_num⟩
  · rw [e1]
    simp only [figuresOf, Option.map, refinanceFigures, orTruthy, h1]
    norm_num
  · rw [e2]
    simp only [figuresOf, Option.map, refinanceFigures, orTruthy, h1]
    norm_num

/-- C1 (amended): in every successful analysis, a supplied nonzero override
takes precedence field-by-field; an absent or zero override falls back — the
rate to current_rate times 95/100, the credit score to the queried
credit_score (default 700), the income to the queried annual_income (default
50000).  In particular new_interest_rate 5.0 against the stored rate 7.25
yields proposed rate 5.0 and rate difference 29/4 minus 5. -/
theorem C1_override_amended (engine : Bool) (db : Database) (uid : Option String)
    (r : Option ℚ) (c : Option ℤ) (i : Option ℚ) (f : RefinanceFigures)
    (h : analyze_refinance_outcome engine db uid r c i = RefinanceOutcome.analysis f) :
    (∀ r0 : ℚ, r = some r0 → r0 ≠ 0 → f.proposed_rate = r0) ∧
    (r = none ∨ r = some 0 → f.proposed_rate = f.current_rate * (95 / 100)) ∧
    (∀ c0 : ℤ, c = some c0 → c0 ≠ 0 → f.credit_score = c0) ∧
    (c = none ∨ c = some 0 →
      f.credit_score = getInt (get_account_details engine db uid) "credit_score" 700) ∧
    (∀ i0 : ℚ, i = some i0 → i0 ≠ 0 → f.income = i0) ∧
    (i = none ∨ i = some 0 →
      f.income = getNum (get_account_details engine db uid) "annual_income" 50000) ∧
    (figuresOf (analyze_refinance_outcome true db725 (some "u7") (some 5) none none)).map
        RefinanceFigures.proposed_rate = some 5 ∧
    (figuresOf (analyze_refinance_outcome true db725 (some "u7") (some 5) none none)).map
        RefinanceFigures.rate_difference = some (29 / 4 - 5) := by
  have hf := analysis_eq_figures engine db uid r c i f h
  subst hf
  have e5 : analyze_refinance_outcome true db725 (some "u7") (some 5) none none
      = RefinanceOutcome.analysis (refinanceFigures loanRow725 accountRow725 (some 5) none none) :=
    rfl
  have h1 : getNum loanRow725 "interest_rate" 0 = 29 / 4 := rfl
  refine ⟨?_, ?_, ?_, ?_, ?_, ?_, ?_, ?_⟩
  · intro r0 hr hr0
    subst hr
    simp [refinanceFigures, orTruthy, hr0]
  · rintro (hr | hr) <;> subst hr <;> simp [refinanceFigures, orTruthy]
  · intro c0 hc hc0
    subst hc
    simp [refinanceFigures, orTruthyInt, hc0]
  · rintro (hc | hc) <;> subst hc <;> simp [refinanceFigures, orTruthyInt]
  · intro i0 hi hi0
    subst hi
    simp [refinanceFigures, orTruthy, hi0]
  · rintro (hi | hi) <;> subst hi <;> simp [refinanceFigures, orTruthy]
  · rw [e5]
    simp only [figuresOf, Option.map, refinanceFigures, orTruthy, h1]
    norm_num
  · rw [e5]
    simp only [figuresOf, Option.map, refinanceFigures, orTruthy, h1]
    norm_num

/-- C1 (amended) at a concrete input: with the stored rate 7.25 and the
supplied override 5.0, the proposed rate is the override 5.0. -/
theorem C1_override_amended_witness :
    (refinanceFigures (get_loan_details true db725 (some "u7"))
        (get_account_details true db725 (some "u7")) (some 5) none none).proposed_rate = 5 :=
  (C1_override_amended true db725 (some "u7") (some 5) none none _ rfl).1 5 rfl (by norm_num)

/-- C2: whenever the analysis succeeds, the numeric outputs satisfy
rate_difference equals current_rate minus proposed_rate, monthly_savings
equals current_balance times (rate_difference over 100) over 12, and
annual_savings equals monthly_savings times 12. -/
theorem C2_savings_formulas (engine : Bool) (db : Database) (uid : Option String)
    (r : Option ℚ) (c : Option ℤ) (i : Option ℚ) (f : RefinanceFigures)
    (h : analyze_refinance_outcome engine db uid r c i = RefinanceOutcome.analysis f) :
    f.rate_difference = f.current_rate - f.proposed_rate ∧
    f.monthly_savings = f.current_balance * (f.rate_difference / 100) / 12 ∧
    f.annual_savings = f.monthly_savings * 12 := by
  have hf := analysis_eq_figures engine db uid r c i f h
  subst hf
  exact ⟨rfl, rfl, rfl⟩

/-- C2 at a concrete successful input: the three formulas hold for the
figures computed on `db49`. -/
theorem C2_savings_formulas_witness :
    (refinanceFigures (get_loan_details true db49 (some "u1"))
        (get_account_details true db49 (some "u1")) (some 5) none none).rate_difference
      = (refinanceFigures (get_loan_details true db49 (some "u1"))
          (get_account_details true db49 (some "u1")) (some 5) none none).current_rate
        - (refinanceFigures (get_loan_details true db49 (some "u1"))
            (get_account_details true db49 (some "u1")) (some 5) none none).proposed_rate :=
  (C2_savings_formulas true db49 (some "u1") (some 5) none none _ rfl).1

/-- C3: in every successful analysis the recommendation is the favorable
string exactly when rate_difference exceeds 1/2 and the neutral string
otherwise; concretely, a rate difference of 0.49 yields the neutral text and
0.51 yields the favorable text. -/
theorem C3_recommendation_threshold (engine : Bool) (db : Database) (uid : Option String)
    (r : Option ℚ) (c : Option ℤ) (i : Option ℚ) (f : RefinanceFigures)
    (h : analyze_refinance_outcome engine db uid r c i = RefinanceOutcome.analysis f) :
    (f.recommendation = "Proceed with refinance" ↔ f.rate_difference > 1 / 2) ∧
    (f.recommendation = "Current terms are competitive" ↔ ¬ f.rate_difference > 1 / 2) ∧
    (figuresOf (analyze_refinance_outcome true db49 (some "u1") (some 5) none none)).map
        RefinanceFigures.rate_difference = some (49 / 100) ∧
    (figuresOf (analyze_refinance_outcome true db49 (some "u1") (some 5) none none)).map
        RefinanceFigures.recommendation = some "Current terms are competitive" ∧
    (figuresOf (analyze_refinance_outcome true db51 (some "u1") (some 5) none none)).map
        RefinanceFigures.rate_difference = some (51 / 100) ∧
    (figuresOf (analyze_refinance_outcome true db51 (some "u1") (some 5) none none)).map
        RefinanceFigures.recommendation = some "Proceed with refinance" := by
  have hf := analysis_eq_figures engine db uid r c i f h
  subst hf
  have e49 : analyze_refinance_outcome true db49 (some "u1") (some 5) none none
      = RefinanceOutcome.analysis (refinanceFigures loanRow49 accountRowB (some 5) none none) :=
    rfl
  have e51 : analyze_refinance_outcome true db51 (some "u1") (some 5) none none
      = RefinanceOutcome.analysis (refinanceFigures loanRow51 accountRowB (some 5) none none) :=
    rfl
  have h49 : getNum loanRow49 "interest_rate" 0 = 549 / 100 := rfl
  have h51 : getNum loanRow51 "interest_rate" 0 = 551 / 100 := rfl
  refine ⟨(recommendation_iff_figures _ _ _ _ _).1, (recommendation_iff_figures _ _ _ _ _).2,
    ?_, ?_, ?_, ?_⟩
  · rw [e49]
    simp only [figuresOf, Option.map, refinanceFigures, orTruthy, h49]
    norm_num
  · rw [e49]
    simp only [figuresOf, Option.map, refinanceFigures, orTruthy, h49]
    norm_num
  · rw [e51]
    simp only [figuresOf, Option.map, refinanceFigures, orTruthy, h51]
    norm_num
  · rw [e51]
    simp only [figuresOf, Option.map, refinanceFigures, orTruthy, h51]
    norm_num

/-- C3 at a concrete successful input: on `db51` with override 5.0 the
recommendation is the favorable string exactly when the rate difference
exceeds 1/2. -/
theorem C3_recommendation_threshold_witness :
    (refinanceFigures (get_loan_details true db51 (some "u1"))
        (get_account_details true db51 (some "u1")) (some 5) none none).recommendation
        = "Proceed with refinance"
      ↔ (refinanceFigures (get_loan_details true db51 (some "u1"))
          (get_account_details true db51 (some "u1")) (some 5) none none).rate_difference
          > 1 / 2 :=
  (C3_recommendation_threshold true db51 (some "u1") (some 5) none none _ rfl).1

/-- C4: when the lowercased query contains neither refinance nor
restructure, the effective query passed to the graph is the original query
unchanged, whatever the three override fields hold. -/
theorem C4_no_keywords_query_unchanged (query : String) (r : Option ℚ) (c : Option ℤ)
    (i : Option ℚ)
    (h1 : strContains (pyLower query) "refinance" = false)
    (h2 : strContains (pyLower query) "restructure" = false) :
    full_query query r c i = query := by
  unfold full_query
  simp [h1, h2]

/-- C4 at a concrete input: a balance query with all overrides supplied
passes through unchanged. -/
theorem C4_no_keywords_query_unchanged_witness :
    full_query "What is my balance?" (some 5) (some 800) (some 100000)
      = "What is my balance?" :=
  C4_no_keywords_query_unchanged "What is my balance?" (some 5) (some 800) (some 100000)
    (by decide) (by decide)

/-- A helper model oracle for the missing-loan scenario: request the
loan-detail tool once, then emit a final answer as soon as a tool result is
visible in the history. -/
def recoverModel (uid : String) : Model := fun hist =>
  if hist.any (fun m => m.role == Role.tool) then
    { content := "All done", tool_calls := [] }
  else
    { content := "", tool_calls := [{ name := "get_user_loan_detail", arg := uid }] }

/-- Dispatch resolves the loan-detail tool name to the loan-detail tool. -/
theorem dispatch_loan_detail (engine : Bool) (db : Database)
    (p : String → Except String ParsedRefinanceInput) (a : String) :
    dispatchTool engine db p { name := "get_user_loan_detail", arg := a } =
      get_user_loan_detail engine db a := rfl

/-- C5: for a user id with no loan row, get_loan_details returns the error
row, the Loan Detail tool returns the explicit not-found text as its value
(no exception), and a run in which the model requests that tool continues
past the failure — the error becomes a tool-role message and the run still
reaches a finished state. -/
theorem C5_loan_not_found_nonfatal (db : Database) (uid q : String)
    (h : List.lookup uid db.user_loans = none) :
    get_loan_details true db (some uid) = [("error", DBValue.str "Loan not found")] ∧
    get_user_loan_detail true db uid = "Error retrieving loan details: Loan not found" ∧
    runGraph (recoverModel uid) (dispatchTool true db unusedParse) none 2 [humanMsg q] =
      RunResult.finished
        [humanMsg q,
         { role := Role.ai, content := "",
           tool_calls := [{ name := "get_user_loan_detail", arg := uid }] },
         { role := Role.tool, content := "Error retrieving loan details: Loan not found",
           tool_calls := [] },
         { role := Role.ai, content := "All done", tool_calls := [] }] := by
  have hld : get_loan_details true db (some uid) = [("error", DBValue.str "Loan not found")] := by
    unfold get_loan_details
    simp [h]
  have hul : get_user_loan_detail true db uid
      = "Error retrieving loan details: Loan not found" := by
    unfold get_user_loan_detail
    rw [hld]
    rfl
  have hdisp : dispatchTool true db unusedParse { name := "get_user_loan_detail", arg := uid }
      = "Error retrieving loan details: Loan not found" := by
    rw [dispatch_loan_detail, hul]
  refine ⟨hld, hul, ?_⟩
  simp [runGraph, add_messages, chatbot, toolNode, tools_condition, recoverModel, systemMsg,
    AIResponse.toMsg, humanMsg, hdisp]

/-- C5 at a concrete input: the empty database has no loan row for the user,
and the run finishes with the not-found text inside it. -/
theorem C5_loan_not_found_nonfatal_witness :
    get_loan_details true emptyDb (some "u404") = [("error", DBValue.str "Loan not found")] ∧
    get_user_loan_detail true emptyDb "u404"
      = "Error retrieving loan details: Loan not found" ∧
    runGraph (recoverModel "u404") (dispatchTool true emptyDb unusedParse) none 2
        [humanMsg "show my loan"] =
      RunResult.finished
        [humanMsg "show my loan",
         { role := Role.ai, content := "",
           tool_calls := [{ name := "get_user_loan_detail", arg := "u404" }] },
         { role := Role.tool, content := "Error retrieving loan details: Loan not found",
           tool_calls := [] },
         { role := Role.ai, content := "All done", tool_calls := [] }] :=
  C5_loan_not_found_nonfatal emptyDb "u404" "show my loan" rfl

/-- C6: a model that attaches tool calls to every response drives the run to
the exhaustion abort for every iteration ceiling and every starting history;
the run never produces a finished state and, the step function being
structurally bounded, never loops forever. -/
theorem C6_exhaustion_after_ceiling (model : Model) (dispatch : ToolCall → String)
    (uid : Option String) (h : ∀ hist, (model hist).tool_calls ≠ []) :
    ∀ (limit : Nat) (msgs : List Msg),
      runGraph model dispatch uid limit msgs = RunResult.exhausted := by
  intro limit
  induction limit with
  | zero => intro msgs; rfl
  | succ n ih =>
    intro msgs
    have hc : tools_condition (add_messages msgs (chatbot model uid msgs)) = true := by
      unfold tools_condition add_messages chatbot
      rw [List.getLast?_concat]
      simp [AIResponse.toMsg, h]
    unfold runGraph
    simp only [hc, if_true]
    exact ih _

/-- A model oracle that requests a tool on every turn. -/
def alwaysToolModel : Model :=
  fun _ => { content := "", tool_calls := [{ name := "t", arg := "" }] }

/-- A dispatcher returning the empty result for every call. -/
def nullDispatch : ToolCall → String := fun _ => ""

/-- C6 at a concrete input: with the always-requesting model and a ceiling
of 3, the run ends in exhaustion. -/
theorem C6_exhaustion_after_ceiling_witness :
    runGraph alwaysToolModel nullDispatch none 3 [] = RunResult.exhausted :=
  C6_exhaustion_after_ceiling alwaysToolModel nullDispatch none
    (fun hist => by simp [alwaysToolModel]) 3 []

/-- C7: the refinance analysis is deterministic — two invocations on equal
engines, database snapshots, user ids and overrides produce equal
monthly_savings, annual_savings and rate_difference, and equal rendered
output. -/
theorem C7_refinance_deterministic (engine1 engine2 : Bool) (db1 db2 : Database)
    (uid1 uid2 : Option String) (r1 r2 : Option ℚ) (c1 c2 : Option ℤ) (i1 i2 : Option ℚ)
    (he : engine1 = engine2) (hdb : db1 = db2) (hu : uid1 = uid2) (hr : r1 = r2)
    (hc : c1 = c2) (hi : i1 = i2) :
    (figuresOf (analyze_refinance_outcome engine1 db1 uid1 r1 c1 i1)).map
        RefinanceFigures.monthly_savings
      = (figuresOf (analyze_refinance_outcome engine2 db2 uid2 r2 c2 i2)).map
          RefinanceFigures.monthly_savings ∧
    (figuresOf (analyze_refinance_outcome engine1 db1 uid1 r1 c1 i1)).map
        RefinanceFigures.annual_savings
      = (figuresOf (analyze_refinance_outcome engine2 db2 uid2 r2 c2 i2)).map
          RefinanceFigures.annual_savings ∧
    (figuresOf (analyze_refinance_outcome engine1 db1 uid1 r1 c1 i1)).map
        RefinanceFigures.rate_difference
      = (figuresOf (analyze_refinance_outcome engine2 db2 uid2 r2 c2 i2)).map
          RefinanceFigures.rate_difference ∧
    analyze_refinance_options engine1 db1 uid1 r1 c1 i1
      = analyze_refinance_options engine2 db2 uid2 r2 c2 i2 := by
  subst he
  subst hdb
  subst hu
  subst hr
  subst hc
  subst hi
  exact ⟨rfl, rfl, rfl, rfl⟩

/-- C7 at a concrete input: repeating the db49 analysis yields the same
monthly savings. -/
theorem C7_refinance_deterministic_witness :
    (figuresOf (analyze_refinance_outcome true db49 (some "u1") (some 5) none none)).map
        RefinanceFigures.monthly_savings
      = (figuresOf (analyze_refinance_outcome true db49 (some "u1") (some 5) none none)).map
          RefinanceFigures.monthly_savings :=
  (C7_refinance_deterministic true true db49 db49 (some "u1") (some "u1") (some 5) (some 5)
    none none none none rfl rfl rfl rfl rfl rfl).1

/-- C8: the chatbot node sends the freshly built system message prepended to
the stored history, while its returned delta is exactly the single model
response; the persisted state is the old history plus that assistant
message, and the delta holds no system-role message. -/
theorem C8_system_message_not_persisted (model : Model) (uid : Option String)
    (msgs : List Msg) :
    chatbot model uid msgs = [AIResponse.toMsg (model (systemMsg uid :: msgs))] ∧
    add_messages msgs (chatbot model uid msgs)
      = msgs ++ [AIResponse.toMsg (model (systemMsg uid :: msgs))] ∧
    (chatbot model uid msgs).map Msg.role = [Role.ai] ∧
    (systemMsg uid).role = Role.system :=
  ⟨rfl, rfl, rfl, rfl⟩

/-- C9: a zero-valued override is treated exactly like an absent one for all
three fields, because the source tests truthiness; in particular with
new_rate None or 0 the proposed rate falls back to current_rate times
95/100. -/
theorem C9_zero_override_falls_back (loan fin : Row) (c : Option ℤ) (i : Option ℚ) :
    refinanceFigures loan fin (some 0) (some 0) (some 0)
      = refinanceFigures loan fin none none none ∧
    (refinanceFigures loan fin none c i).proposed_rate
      = getNum loan "interest_rate" 0 * (95 / 100) ∧
    (refinanceFigures loan fin (some 0) c i).proposed_rate
      = getNum loan "interest_rate" 0 * (95 / 100) := by
  refine ⟨?_, rfl, ?_⟩
  · simp [refinanceFigures, orTruthy, orTruthyInt]
  · simp [refinanceFigures, orTruthy]

/-- C10: smart_refinance_agent is a total function of its string input — an
input not opening with a left brace is taken whole as the user id with all
overrides absent, a parse failure on a brace-opened input is caught and
returned as the error text, and a successful parse forwards the extracted
user id and overrides to the analysis. -/
theorem C10_smart_refinance_never_raises (engine : Bool) (db : Database)
    (jsonParse : String → Except String ParsedRefinanceInput) (s : String) :
    (pyStarts s "\x7b" = false →
      smart_refinance_agent engine db jsonParse s
        = analyze_refinance_options engine db (some s) none none none) ∧
    (∀ e, pyStarts s "\x7b" = true → jsonParse s = Except.error e →
      smart_refinance_agent engine db jsonParse s = "Error in refinance analysis: " ++ e) ∧
    (∀ d, pyStarts s "\x7b" = true → jsonParse s = Except.ok d →
      smart_refinance_agent engine db jsonParse s
        = analyze_refinance_options engine db d.user_id d.new_interest_rate
            d.new_credit_score d.new_income) := by
  unfold smart_refinance_agent
  refine ⟨fun h => ?_, fun e h he => ?_, fun d h hd => ?_⟩
  · simp [h]
  · simp [h, he]
  · simp [h, hd]

/-- C10 at a concrete input: a bare user id is forwarded whole with absent
overrides. -/
theorem C10_smart_refinance_never_raises_witness :
    smart_refinance_agent true db49 unusedParse "u1"
      = analyze_refinance_options true db49 (some "u1") none none none :=
  (C10_smart_refinance_never_raises true db49 unusedParse "u1").1 (by decide)

end LoanServicing
